import Mathlib

/-!
Shallow embedding of the UCP repository (ucp_core.py, pattern_library.py,
problem_identifier.py) in Lean 4, together with theorems settling the
frozen claims about its specification.

Text is modelled as List Char. Python string idioms (lowercasing,
case-insensitive substring search, the non-overlapping match semantics of
re.findall and re.sub on the literal patterns this codebase uses, splitting
and stripping) are implemented below from scratch, mirroring CPython
semantics on the ASCII texts this program manipulates. Python float
arithmetic is modelled by exact rational arithmetic.
-/

namespace PyStr

/-- ASCII lowercase of a char list, as Python str.lower on ASCII text. -/
def lcase (l : List Char) : List Char := l.map Char.toLower

/-- Python str.isspace characters relevant to str.strip (ASCII). -/
def py_is_space (c : Char) : Bool :=
  c = ' ' || c = '\t' || c = '\n' || c = '\r' || c = Char.ofNat 11 || c = Char.ofNat 12

/-- Python str.strip: remove leading and trailing whitespace. -/
def py_strip (l : List Char) : List Char :=
  ((l.dropWhile py_is_space).reverse.dropWhile py_is_space).reverse

/-- Case-insensitive prefix test: pat matches at the head of text. -/
def is_ci_prefix (pat text : List Char) : Bool :=
  (lcase pat).isPrefixOf (lcase text)

/-- Substring test on already-lowercased lists (Python in operator). -/
def infix_of_lower (pat : List Char) : List Char → Bool
  | [] => pat.isEmpty
  | l@(_ :: rest) => pat.isPrefixOf l || infix_of_lower pat rest

/-- Case-insensitive containment, as Python: pat in text.lower(). -/
def contains_ci (pat text : List Char) : Bool :=
  infix_of_lower (lcase pat) (lcase text)

/-- Worker for count_ci. Fuel starts at the text length; each step consumes
at least one char of the text (a match consumes the whole non-empty
pattern, so inside that branch rest.drop (pat.length - 1) equals
text.drop pat.length), hence the fuel never runs out. Structural recursion
on the fuel keeps the function kernel-reducible. -/
def count_ci_aux (pat : List Char) : Nat → List Char → Nat
  | 0, _ => 0
  | _ + 1, [] => 0
  | fuel + 1, c :: rest =>
    if 0 < pat.length ∧ is_ci_prefix pat (c :: rest) = true then
      1 + count_ci_aux pat fuel (rest.drop (pat.length - 1))
    else
      count_ci_aux pat fuel rest

/-- Number of non-overlapping, leftmost-first case-insensitive occurrences of
a non-empty literal pattern, the semantics of Python re.findall with
re.IGNORECASE on the literal patterns used by this codebase. -/
def count_ci (pat : List Char) (text : List Char) : Nat :=
  count_ci_aux pat text.length text

/-- Worker for remove_ci, with the same fuel discipline as count_ci_aux. -/
def remove_ci_aux (pat : List Char) : Nat → List Char → List Char
  | 0, l => l
  | _ + 1, [] => []
  | fuel + 1, c :: rest =>
    if 0 < pat.length ∧ is_ci_prefix pat (c :: rest) = true then
      remove_ci_aux pat fuel (rest.drop (pat.length - 1))
    else
      c :: remove_ci_aux pat fuel rest

/-- Removal of all non-overlapping case-insensitive occurrences of a literal
pattern, the semantics of Python re.sub with an empty replacement. -/
def remove_ci (pat : List Char) (text : List Char) : List Char :=
  remove_ci_aux pat text.length text

/-- Split a char list at every occurrence of one of the delimiter chars,
the semantics of re.split with a character class. The second argument is
the reversed chunk accumulated so far. -/
def split_on_delims (delims : List Char) : List Char → List Char → List (List Char)
  | [], acc => [acc.reverse]
  | c :: rest, acc =>
    if delims.contains c then acc.reverse :: split_on_delims delims rest []
    else split_on_delims delims rest (c :: acc)

/-- Sentence list of a text: split on . ! ?, strip each piece, drop empties.
Both ucp_core.py and problem_identifier.py use this exact idiom. -/
def sentences (text : List Char) : List (List Char) :=
  ((split_on_delims ['.', '!', '?'] text []).map py_strip).filter (· ≠ [])

/-- Python str.split with no separator: split on whitespace runs, no empty
chunks. The first argument is the reversed word accumulated so far. -/
def py_split_ws_aux (cur : List Char) : List Char → List (List Char)
  | [] => if cur = [] then [] else [cur.reverse]
  | c :: rest =>
    if py_is_space c then
      if cur = [] then py_split_ws_aux [] rest
      else cur.reverse :: py_split_ws_aux [] rest
    else py_split_ws_aux (c :: cur) rest

/-- Python str.split with no separator. -/
def py_split_ws (l : List Char) : List (List Char) := py_split_ws_aux [] l

/-- Word character in the sense of the regex class backslash-w (ASCII). -/
def is_word_char (c : Char) : Bool := c.isAlphanum || c = '_'

/-- Maximal run of digit chars found by the regex backslash-d-plus. The
first argument is the reversed run accumulated so far. -/
def digit_runs_aux (cur : List Char) : List Char → List (List Char)
  | [] => if cur = [] then [] else [cur.reverse]
  | c :: rest =>
    if c.isDigit then digit_runs_aux (c :: cur) rest
    else if cur = [] then digit_runs_aux [] rest
    else cur.reverse :: digit_runs_aux [] rest

/-- All maximal digit runs of a text, as re.findall of backslash-d-plus. -/
def digit_runs (l : List Char) : List (List Char) := digit_runs_aux [] l

/-- Decimal value of a digit run, as Python int(...). -/
def parse_nat (l : List Char) : Nat :=
  l.foldl (fun n c => n * 10 + (c.toNat - 48)) 0

/-- Strip the given leading characters, as Python str.lstrip with a set. -/
def py_lstrip_set (set : List Char) (l : List Char) : List Char :=
  l.dropWhile (fun c => set.contains c)

/-- Decimal digits of n left-padded with zeros to width 4, the Python
format spec 04d for the values below 10000 produced by hash mod 10000. -/
def pad4 (n : Nat) : List Char :=
  let d := Nat.toDigits 10 n
  List.replicate (4 - d.length) '0' ++ d

/-- First-occurrence deduplication keyed on the element itself. CPython
list(set(xs)) produces the same multiset with hash-dependent order; this
model fixes first-occurrence order. No claim depends on that order. -/
def dedup_first (seen : List (List Char)) : List (List Char) → List (List Char)
  | [] => []
  | x :: rest =>
    if seen.contains x then dedup_first seen rest
    else x :: dedup_first (x :: seen) rest

/-- The apostrophe character. -/
def apos : Char := Char.ofNat 39

/-- Whether the position right after a just-matched word is a word boundary:
end of text, or a non-word character. -/
def boundary_after : List Char → Bool
  | [] => true
  | c :: _ => !is_word_char c

/-- First word of ws that matches case-insensitively at the head of text
with a word boundary after it, the ordered-alternation semantics of a
regex group (w1|w2|...) followed by a word-boundary assertion. -/
def first_word_match (ws : List (List Char)) (text : List Char) : Option (List Char) :=
  ws.find? (fun w => is_ci_prefix w text && boundary_after (text.drop w.length))

/-- Removal of every whole-word occurrence of one of the given words, the
semantics of re.sub over a word-bounded alternation with IGNORECASE. The
Bool argument records whether the previous char was a word character (a
word can only start at a word boundary). All words used here start and end
with word characters, so after a removal the previous char is a word char.
Fuel is the length of the remaining text; each step consumes at least one
char, so the fuel never runs out. -/
def sub_words_aux (ws : List (List Char)) : Nat → Bool → List Char → List Char
  | 0, _, l => l
  | _ + 1, _, [] => []
  | fuel + 1, prevW, c :: rest =>
    match (if prevW then none else first_word_match ws (c :: rest)) with
    | some w => sub_words_aux ws fuel true ((c :: rest).drop w.length)
    | none => c :: sub_words_aux ws fuel (is_word_char c) rest

/-- Remove every whole-word occurrence of one of the given words. -/
def sub_words (ws : List (List Char)) (text : List Char) : List Char :=
  sub_words_aux ws text.length false text

end PyStr

namespace UCPCore

open PyStr

/-- The six bias categories of ucp_core.py. -/
inductive BiasType where
  | narrative_padding
  | emotional_manipulation
  | authority_appeal
  | confirmation_seeking
  | hedging_uncertainty
  | verbose_redundancy
deriving DecidableEq

/-- LogicalChain record of ucp_core.py. -/
structure LogicalChain where
  premise : List Char
  reasoning : List (List Char)
  conclusion : List Char
  confidence : ℚ
  contradictions : List (List Char)
deriving DecidableEq

/-- CompressionResult record of ucp_core.py. -/
structure CompressionResult where
  original_length : Nat
  compressed_length : Nat
  compression_ratio : ℚ
  information_density : ℚ
  bias_score : ℚ
  logical_coherence : ℚ
deriving DecidableEq

/-- The bias pattern table of UCPProcessor.init_bias_patterns, in Python
dict insertion order. Every regex in the table is a literal string (the
only escape, in right-question-mark, denotes a literal question mark). -/
def bias_patterns : List (BiasType × List (List Char)) :=
  [ (.narrative_padding,
      [ "let me explain".data, "it".data ++ [apos] ++ "s important to understand".data,
        "as you can see".data,
        "obviously".data, "clearly".data, "of course".data, "needless to say".data ]),
    (.emotional_manipulation,
      [ "exciting".data, "amazing".data, "incredible".data, "revolutionary".data,
        "breakthrough".data, "game-changing".data, "transformative".data ]),
    (.authority_appeal,
      [ "experts say".data, "studies show".data, "research indicates".data,
        "according to".data, "as proven by".data, "established fact".data ]),
    (.confirmation_seeking,
      [ "don".data ++ [apos] ++ "t you think".data,
        "wouldn".data ++ [apos] ++ "t you agree".data, "right?".data,
        "makes sense".data, "does that sound".data, "what do you think".data ]),
    (.hedging_uncertainty,
      [ "might".data, "could".data, "perhaps".data, "possibly".data, "maybe".data,
        "seems like".data, "appears to".data, "tends to".data, "generally".data ]),
    (.verbose_redundancy,
      [ "in other words".data, "to put it simply".data, "what this means".data,
        "in essence".data, "basically".data, "fundamentally".data ]) ]

/-- The logical operator keywords of UCPProcessor. -/
def logical_operators : List (List Char) :=
  [ "therefore".data, "because".data, "if".data, "then".data, "implies".data,
    "contradicts".data ]

/-- The causal relationship keywords of extract_logical_chain. -/
def causal_words : List (List Char) :=
  [ "causes".data, "leads to".data, "results in".data, "enables".data, "creates".data ]

/-- The negation words of detect_contradictions. The words with an
apostrophe are built with the apos character. -/
def negation_words : List (List Char) :=
  [ "not".data, "never".data, "no".data,
    "isn".data ++ [apos] ++ [ 't' ],
    "doesn".data ++ [apos] ++ [ 't' ],
    "won".data ++ [apos] ++ [ 't' ] ]

/-- UCPProcessor.detect_contradictions: for every ordered pair of sentences,
report a contradiction when the first sentence with its negation words
removed equals the second one after stripping and lowercasing. -/
def detect_contradictions : List (List Char) → List (List Char)
  | [] => []
  | s1 :: rest =>
    (rest.filterMap (fun s2 =>
      if lcase (py_strip (sub_words negation_words s1)) = lcase (py_strip s2) then
        some ( "Contradiction: ".data ++ [apos] ++ s1 ++ [apos] ++ " vs ".data
               ++ [apos] ++ s2 ++ [apos])
      else none)) ++ detect_contradictions rest

/-- UCPProcessor.calculate_confidence. -/
def calculate_confidence (reasoning : List (List Char))
    (contradictions : List (List Char)) : ℚ :=
  if contradictions ≠ [] then 0
  else min 1 ((0.5 : ℚ) + reasoning.length * (0.3 : ℚ))

/-- UCPProcessor.extract_logical_chain. -/
def extract_logical_chain (text : List Char) : LogicalChain :=
  let sents := sentences text
  let premise := sents.headD []
  let conclusion := sents.getLastD []
  let reasoning0 := sents.filter (fun s =>
    logical_operators.any (fun op => contains_ci op s)
    || causal_words.any (fun w => contains_ci w s))
  let reasoning :=
    if reasoning0 = [] ∧ sents.length > 2 then (sents.drop 1).dropLast else reasoning0
  let contradictions := detect_contradictions sents
  ⟨premise, reasoning, conclusion, calculate_confidence reasoning contradictions,
   contradictions⟩

/-- One step of the bias removal loop of UCPProcessor.compress: add the
number of matches of the pattern in the current text, then delete them. -/
def compress_step (st : Nat × List Char) (pat : List Char) : Nat × List Char :=
  (st.1 + count_ci pat st.2, remove_ci pat st.2)

/-- The bias pattern list flattened in iteration order. -/
def bias_patterns_flat : List (List Char) :=
  bias_patterns.flatMap Prod.snd

/-- The bias removal loop of UCPProcessor.compress: total match count and
the text with all bias patterns removed, in table order. -/
def bias_removal (text : List Char) : Nat × List Char :=
  bias_patterns_flat.foldl compress_step (0, text)

/-- The core_logic list reconstructed by UCPProcessor.compress: premise if
non-empty, then the reasoning sentences, then conclusion if non-empty. -/
def core_logic_of (chain : LogicalChain) : List (List Char) :=
  (if chain.premise ≠ [] then [chain.premise] else [])
  ++ chain.reasoning
  ++ (if chain.conclusion ≠ [] then [chain.conclusion] else [])

/-- The compressed text produced by UCPProcessor.compress: the logical
chain of the bias-stripped text, joined by period-space. -/
def compressed_text_of (text : List Char) : List Char :=
  List.intercalate ". ".data
    (core_logic_of (extract_logical_chain (bias_removal text).2))

/-- The guarded-division idiom of the CompressionResult fields: numerator
over denominator when the denominator is positive, else 0. -/
def guarded_ratio (num den : Nat) : ℚ :=
  if den > 0 then (num : ℚ) / den else 0

/-- UCPProcessor.compress. The local variables of the Python body are
flattened into the helper functions above (each is a pure function of the
input, so the record below computes exactly the fields the Python
assignments do). -/
def compress (text : List Char) : CompressionResult :=
  { original_length := text.length
    compressed_length := (compressed_text_of text).length
    compression_ratio := guarded_ratio (compressed_text_of text).length text.length
    information_density :=
      guarded_ratio (extract_logical_chain (bias_removal text).2).reasoning.length
        (compressed_text_of text).length
    bias_score := guarded_ratio (bias_removal text).1 text.length
    logical_coherence := (extract_logical_chain (bias_removal text).2).confidence }

/-- UCPProcessor.detect_bias: per-category match counts over the text. -/
def detect_bias (text : List Char) : List (BiasType × Nat) :=
  bias_patterns.map (fun bp => (bp.1, (bp.2.map (fun pat => count_ci pat text)).sum))

/-- The harmful patterns of validate_connection_axiom. -/
def harmful_patterns : List (List Char) :=
  [ "eliminate".data, "destroy".data, "remove people".data, "reduce population".data,
    "dominate".data, "control humans".data, "replace humans".data ]

/-- The connection patterns of validate_connection_axiom. -/
def connection_patterns : List (List Char) :=
  [ "collaborate".data, "connect".data, "improve".data, "enhance".data, "help".data,
    "cooperate".data, "support".data, "strengthen".data ]

/-- The method validate_connection_axiom of UCPProcessor. -/
def validate_connection_axiom (text : List Char) : Bool :=
  let harmful_score := (harmful_patterns.map (fun pat => count_ci pat text)).sum
  let connection_score := (connection_patterns.map (fun pat => count_ci pat text)).sum
  connection_score > harmful_score

/-- UCPProcessor.calculate_enhancement_score. -/
def calculate_enhancement_score (compression : CompressionResult)
    (logic : LogicalChain) (connection_valid : Bool) : ℚ :=
  let compression_benefit := 1 - compression.compression_ratio
  let logic_quality := logic.confidence
  let connection_bonus : ℚ := if connection_valid then 1 else 0
  let bias_penalty := min (0.5 : ℚ) compression.bias_score
  let base_score := (compression_benefit + logic_quality + connection_bonus - bias_penalty) / 3
  max (0.3 : ℚ) base_score

/-- The record returned by UCPProcessor.process (the original dict keys map
one-to-one onto these fields). -/
structure ProcessResult where
  original_text : List Char
  bias_detection : List (BiasType × Nat)
  logical_chain : LogicalChain
  compression : CompressionResult
  connection_axiom_valid : Bool
  enhancement_score : ℚ

/-- UCPProcessor.process. -/
def process (input_text : List Char) : ProcessResult :=
  let bias_detection := detect_bias input_text
  let logical_chain := extract_logical_chain input_text
  let compression_result := compress input_text
  let connection_valid := validate_connection_axiom input_text
  { original_text := input_text
    bias_detection := bias_detection
    logical_chain := logical_chain
    compression := compression_result
    connection_axiom_valid := connection_valid
    enhancement_score :=
      calculate_enhancement_score compression_result logical_chain connection_valid }

end UCPCore

namespace PatternLibrary

open PyStr

/-- SolutionPattern record of pattern_library.py. -/
structure SolutionPattern where
  id : List Char
  problem_domain : List Char
  solution_approach : List Char
  implementation_steps : List (List Char)
  success_metrics : List (List Char)
  prerequisites : List (List Char)
  connections_enhanced : Int
  confidence_score : ℚ
  source : List Char
deriving DecidableEq

/-- ProblemSignature record of pattern_library.py. -/
structure ProblemSignature where
  domain : List Char
  complexity : List Char
  constraints : List (List Char)
  stakeholders : List (List Char)
  success_criteria : List (List Char)
deriving DecidableEq

/-- The in-memory state of a PatternLibrary: the patterns dict and the
problem_signatures dict, as insertion-ordered association lists (the
connection_weights dict is initialized and never used by any operation). -/
structure LibraryState where
  patterns : List (List Char × SolutionPattern)
  problem_signatures : List (List Char × ProblemSignature)
deriving DecidableEq

/-- The state of a freshly constructed PatternLibrary before any load. -/
def empty_state : LibraryState := ⟨[], []⟩

/-- Python dict insertion: overwrite in place if the key exists, else
append at the end. -/
def dict_insert {α : Type} (k : List Char) (v : α) :
    List (List Char × α) → List (List Char × α)
  | [] => [(k, v)]
  | (k2, v2) :: rest =>
    if k2 = k then (k2, v) :: rest else (k2, v2) :: dict_insert k v rest

/-- The domain keyword table of PatternLibrary.classify_domain, in dict
insertion order. -/
def domain_keywords : List (List Char × List (List Char)) :=
  [ ( "communication".data,
      [ "communicate".data, "message".data, "talk".data, "understand".data, "clarity".data ]),
    ( "coordination".data,
      [ "coordinate".data, "organize".data, "sync".data, "align".data, "collaborate".data ]),
    ( "efficiency".data,
      [ "optimize".data, "improve".data, "faster".data, "reduce".data, "streamline".data ]),
    ( "connection".data,
      [ "connect".data, "relationship".data, "bond".data, "link".data, "network".data ]),
    ( "knowledge".data,
      [ "learn".data, "understand".data, "knowledge".data, "information".data, "data".data ]),
    ( "automation".data,
      [ "automate".data, "automatic".data, "process".data, "workflow".data, "system".data ]),
    ( "scaling".data,
      [ "scale".data, "growth".data, "expand".data, "multiply".data, "distribute".data ]) ]

/-- Python max(items, key=score) keeps the first item with the maximal
score: a later item replaces the current best only when strictly greater. -/
def max_by_score : List (List Char × Nat) → Option (List Char × Nat)
  | [] => none
  | x :: xs => some (xs.foldl (fun b y => if y.2 > b.2 then y else b) x)

/-- PatternLibrary.classify_domain. -/
def classify_domain (problem_description : List Char) : List Char :=
  let domain_scores := domain_keywords.filterMap (fun dk =>
    let score := dk.2.countP (fun kw => contains_ci kw problem_description)
    if score > 0 then some (dk.1, score) else none)
  match max_by_score domain_scores with
  | some best => best.1
  | none => "general".data

/-- The approach keyword table of PatternLibrary.extract_approach, in dict
insertion order. -/
def approach_patterns : List (List Char × List (List Char)) :=
  [ ( "compression".data,
      [ "compress".data, "reduce".data, "minimize".data, "condense".data ]),
    ( "automation".data,
      [ "automate".data, "automatic".data, "scripted".data, "programmatic".data ]),
    ( "standardization".data,
      [ "standard".data, "protocol".data, "format".data, "specification".data ]),
    ( "decomposition".data,
      [ "break down".data, "divide".data, "separate".data, "modular".data ]),
    ( "optimization".data,
      [ "optimize".data, "improve".data, "enhance".data, "refine".data ]),
    ( "validation".data,
      [ "validate".data, "verify".data, "check".data, "confirm".data ]),
    ( "integration".data,
      [ "integrate".data, "combine".data, "merge".data, "unify".data ]) ]

/-- PatternLibrary.extract_approach: first approach in table order with a
keyword occurring in the solution description. -/
def extract_approach (solution_description : List Char) : List Char :=
  match approach_patterns.find? (fun ap =>
      ap.2.any (fun kw => contains_ci kw solution_description)) with
  | some ap => ap.1
  | none => "custom".data

/-- The step marker keywords of parse_implementation_steps. -/
def step_keywords : List (List Char) :=
  [ "implement".data, "create".data, "build".data, "setup".data, "configure".data ]

/-- The leading characters stripped from a step line. -/
def step_lstrip_chars : List Char := "- *1234567890.".data

/-- PatternLibrary.parse_implementation_steps. -/
def parse_implementation_steps (implementation : List Char) : List (List Char) :=
  let lines := split_on_delims [ '\n' ] implementation []
  let steps := lines.filterMap (fun line0 =>
    let line := py_strip line0
    if line ≠ [] ∧ (line.headD ' ' = '-' ∨ "1.".data.isPrefixOf line ∨ line.headD ' ' = '*'
        ∨ step_keywords.any (fun kw => contains_ci kw line)) then
      some (py_strip (py_lstrip_set step_lstrip_chars line))
    else none)
  if steps = [] then [py_strip implementation] else steps

/-- The prerequisite keywords of extract_prerequisites. -/
def prereq_keywords : List (List Char) :=
  [ "require".data, "need".data, "must".data, "prerequisite".data, "dependency".data ]

/-- PatternLibrary.extract_prerequisites. -/
def extract_prerequisites (implementation : List Char) : List (List Char) :=
  (split_on_delims [ '\n' ] implementation []).filterMap (fun line =>
    if prereq_keywords.any (fun kw => contains_ci kw line) then some (py_strip line)
    else none)

/-- The connection indicators of PatternLibrary.calculate_connection_impact. -/
def connection_indicators : List (List Char) :=
  [ "collaborate".data, "connect".data, "network".data, "link".data, "relationship".data,
    "communication".data, "cooperation".data, "partnership".data, "community".data ]

/-- PatternLibrary.calculate_connection_impact. -/
def calculate_connection_impact (solution_description : List Char) : Int :=
  (connection_indicators.countP (fun kw => contains_ci kw solution_description) : Int)

/-- The specificity keywords of calculate_pattern_confidence. -/
def specificity_words : List (List Char) :=
  [ "implement".data, "create".data, "build".data, "use".data ]

/-- PatternLibrary.calculate_pattern_confidence. -/
def calculate_pattern_confidence (problem solution : List Char) : ℚ :=
  let problem_clarity : ℚ := ((py_split_ws problem).length : ℚ) / 100
  let solution_specificity : ℚ :=
    ((py_split_ws solution).countP (fun w => specificity_words.contains (lcase w)) : ℚ)
  min 1 (problem_clarity + solution_specificity * (0.1 : ℚ))

/-- PatternLibrary.extract_pattern. The id generator (an md5 hexdigest
truncation in generate_pattern_id) is passed in as a function gen_id on the
combined domain-underscore-approach string; no claim depends on its value.
The success-metric extraction (five regexes with capture groups and greedy
dot-star over the solution text) is likewise passed in as extract_metrics;
no claim depends on it. Returns the stored pattern and the updated state. -/
def extract_pattern (gen_id : List Char → List Char)
    (extract_metrics : List Char → List (List Char)) (st : LibraryState)
    (problem_description solution_description implementation source : List Char) :
    SolutionPattern × LibraryState :=
  let problem_domain := classify_domain problem_description
  let solution_approach := extract_approach solution_description
  let implementation_steps := parse_implementation_steps implementation
  let success_metrics := extract_metrics solution_description
  let prerequisites := extract_prerequisites implementation
  let connections_enhanced := calculate_connection_impact solution_description
  let confidence_score :=
    calculate_pattern_confidence problem_description solution_description
  let pattern_id := gen_id (problem_domain ++ [ '_' ] ++ solution_approach)
  let pattern : SolutionPattern :=
    ⟨pattern_id, problem_domain, solution_approach, implementation_steps,
     success_metrics, prerequisites, connections_enhanced, confidence_score, source⟩
  (pattern, ⟨dict_insert pattern_id pattern st.patterns, st.problem_signatures⟩)

/-- PatternLibrary.calculate_similarity. -/
def calculate_similarity (problem_sig : ProblemSignature)
    (pattern : SolutionPattern) : ℚ :=
  let domain_match : ℚ := if problem_sig.domain = pattern.problem_domain then 1 else 0
  let constraint_overlap : ℚ :=
    if problem_sig.constraints ≠ [] then
      ((problem_sig.constraints.countP (fun constraint =>
          pattern.implementation_steps.any (fun step => contains_ci constraint step))) : ℚ)
        / problem_sig.constraints.length
    else 0
  domain_match * (0.6 : ℚ) + constraint_overlap * (0.4 : ℚ)

/-- PatternLibrary.find_similar_patterns: keep the stored patterns whose
similarity reaches the threshold, stably sorted by descending similarity
(Python list.sort with reverse=True is stable; mergeSort with this
comparison is the same stable descending sort). -/
def find_similar_patterns (st : LibraryState) (problem_signature : ProblemSignature)
    (threshold : ℚ) : List SolutionPattern :=
  let similar_patterns := st.patterns.filterMap (fun kv =>
    let similarity := calculate_similarity problem_signature kv.2
    if similarity ≥ threshold then some (kv.2, similarity) else none)
  (similar_patterns.mergeSort (fun a b => decide (b.2 ≤ a.2))).map Prod.fst

/-- The recombined-solution payload returned by recombine_patterns. -/
structure RecombinedSolution where
  implementation_steps : List (List Char)
  prerequisites : List (List Char)
  confidence_score : ℚ
  connections_enhanced : Int
  source_patterns : List (List Char)
  problem_context : List Char
deriving DecidableEq

/-- Return value of recombine_patterns: either the error dict or the
recombined-solution dict. -/
inductive RecombineResult where
  | error (msg : List Char)
  | recombined (sol : RecombinedSolution)
deriving DecidableEq

/-- Case-insensitive first-occurrence deduplication of the combined step
list (the seen set holds lowercased steps). -/
def dedup_steps (seen : List (List Char)) : List (List Char) → List (List Char)
  | [] => []
  | s :: rest =>
    if seen.contains (lcase s) then dedup_steps seen rest
    else s :: dedup_steps (lcase s :: seen) rest

/-- PatternLibrary.recombine_patterns. The model is total: the only
division (by the length of the pattern list) sits behind the empty-list
early return, so no Python exception can occur in this function. -/
def recombine_patterns (patterns : List SolutionPattern)
    (problem_context : List Char) : RecombineResult :=
  if patterns = [] then .error "No patterns provided for recombination".data
  else
    let combined_steps := patterns.flatMap (fun p => p.implementation_steps)
    let unique_steps := dedup_steps [] combined_steps
    let all_prerequisites := patterns.flatMap (fun p => p.prerequisites)
    let unique_prerequisites := dedup_first [] all_prerequisites
    let avg_confidence := (patterns.map (fun p => p.confidence_score)).sum / patterns.length
    let total_connections := (patterns.map (fun p => p.connections_enhanced)).sum
    .recombined
      ⟨unique_steps, unique_prerequisites, avg_confidence, total_connections,
       patterns.map (fun p => p.id), problem_context⟩

end PatternLibrary

/-- JSON values, the image of Python json.load. Python floats are modelled
as exact rationals: json.dump writes repr of the float, which json.load
parses back to the identical float, so the tree-level round trip is exact. -/
inductive Json where
  | str (s : List Char)
  | int (n : Int)
  | rat (q : ℚ)
  | arr (items : List Json)
  | obj (fields : List (List Char × Json))

/-- Contents of the pattern file as seen by load_patterns: the file can be
absent, present but not decodable as JSON (json.load raises
JSONDecodeError), or decodable to a JSON tree. The byte-level rendering
and parsing are performed by the Python json library and are modelled at
the JSON-tree level. -/
inductive FileContent where
  | missing
  | undecodable
  | decoded (data : Json)

/-- The Python exceptions that load_patterns and the problem detector can
raise and do not catch. -/
inductive PyErr where
  | attributeError
  | typeError
  | valueError
deriving DecidableEq

namespace PatternLibrary

open PyStr

/-- asdict of a SolutionPattern followed by json.dump, field order as in
the dataclass declaration. -/
def pattern_to_json (p : SolutionPattern) : Json :=
  .obj
    [ ( "id".data, .str p.id),
      ( "problem_domain".data, .str p.problem_domain),
      ( "solution_approach".data, .str p.solution_approach),
      ( "implementation_steps".data, .arr (p.implementation_steps.map .str)),
      ( "success_metrics".data, .arr (p.success_metrics.map .str)),
      ( "prerequisites".data, .arr (p.prerequisites.map .str)),
      ( "connections_enhanced".data, .int p.connections_enhanced),
      ( "confidence_score".data, .rat p.confidence_score),
      ( "source".data, .str p.source) ]

/-- asdict of a ProblemSignature followed by json.dump. -/
def signature_to_json (s : ProblemSignature) : Json :=
  .obj
    [ ( "domain".data, .str s.domain),
      ( "complexity".data, .str s.complexity),
      ( "constraints".data, .arr (s.constraints.map .str)),
      ( "stakeholders".data, .arr (s.stakeholders.map .str)),
      ( "success_criteria".data, .arr (s.success_criteria.map .str)) ]

/-- PatternLibrary.save_patterns: the JSON document written to storage. -/
def save_patterns (st : LibraryState) : Json :=
  .obj
    [ ( "patterns".data,
        .obj (st.patterns.map (fun kv => (kv.1, pattern_to_json kv.2)))),
      ( "problem_signatures".data,
        .obj (st.problem_signatures.map (fun kv => (kv.1, signature_to_json kv.2)))) ]

/-- Lookup of a key in a JSON object field list; a duplicated key keeps the
last occurrence, as Python json.load does. -/
def lookup_last (k : List Char) : List (List Char × Json) → Option Json
  | [] => none
  | (k2, v) :: rest =>
    match lookup_last k rest with
    | some v2 => some v2
    | none => if k2 = k then some v else none

/-- Extract a JSON string. -/
def as_str : Json → Option (List Char)
  | .str s => some s
  | _ => none

/-- Extract the elements of a JSON array of strings. -/
def as_str_items : List Json → Option (List (List Char))
  | [] => some []
  | .str s :: rest => (as_str_items rest).map (s :: ·)
  | _ => none

/-- Reconstruction of a SolutionPattern from its JSON dict, the behavior of
the SolutionPattern keyword-splat construction from pattern_data: the keys must be exactly the nine field
names in any order (otherwise Python raises TypeError). The dataclass does
not check value types; this model additionally requires the declared types,
which agrees with Python on every file produced by save_patterns. -/
def json_to_pattern : Json → Option SolutionPattern
  | .obj fields =>
    if fields.length = 9 then
      match lookup_last "id".data fields,
          lookup_last "problem_domain".data fields,
          lookup_last "solution_approach".data fields,
          lookup_last "implementation_steps".data fields,
          lookup_last "success_metrics".data fields,
          lookup_last "prerequisites".data fields,
          lookup_last "connections_enhanced".data fields,
          lookup_last "confidence_score".data fields,
          lookup_last "source".data fields with
      | some (.str id), some (.str dom), some (.str app), some (.arr steps),
          some (.arr mets), some (.arr prs), some (.int conn), some (.rat conf),
          some (.str src) =>
        match as_str_items steps, as_str_items mets, as_str_items prs with
        | some steps2, some mets2, some prs2 =>
          some ⟨id, dom, app, steps2, mets2, prs2, conn, conf, src⟩
        | _, _, _ => none
      | _, _, _, _, _, _, _, _, _ => none
    else none
  | _ => none

/-- Reconstruction of a ProblemSignature from its JSON dict, the behavior
of the ProblemSignature keyword-splat construction from sig_data. -/
def json_to_signature : Json → Option ProblemSignature
  | .obj fields =>
    if fields.length = 5 then
      match lookup_last "domain".data fields,
          lookup_last "complexity".data fields,
          lookup_last "constraints".data fields,
          lookup_last "stakeholders".data fields,
          lookup_last "success_criteria".data fields with
      | some (.str dom), some (.str cx), some (.arr cons), some (.arr stks),
          some (.arr crit) =>
        match as_str_items cons, as_str_items stks, as_str_items crit with
        | some cons2, some stks2, some crit2 =>
          some ⟨dom, cx, cons2, stks2, crit2⟩
        | _, _, _ => none
      | _, _, _, _, _ => none
    else none
  | _ => none

/-- The loop inserting reconstructed patterns into the patterns dict. A
TypeError aborts the load and propagates (Python would leave the entries
already inserted in the store and raise; the error outcome is what the
claims concern). -/
def load_pattern_items (acc : List (List Char × SolutionPattern)) :
    List (List Char × Json) → Except PyErr (List (List Char × SolutionPattern))
  | [] => .ok acc
  | (pid, pj) :: rest =>
    match json_to_pattern pj with
    | none => .error .typeError
    | some p => load_pattern_items (dict_insert pid p acc) rest

/-- The loop inserting reconstructed signatures into the signatures dict. -/
def load_signature_items (acc : List (List Char × ProblemSignature)) :
    List (List Char × Json) → Except PyErr (List (List Char × ProblemSignature))
  | [] => .ok acc
  | (pid, sj) :: rest =>
    match json_to_signature sj with
    | none => .error .typeError
    | some s => load_signature_items (dict_insert pid s acc) rest

/-- PatternLibrary.load_patterns on a fresh store. A missing file returns
early; a JSONDecodeError is caught and swallowed; both leave the store
empty. Decoded data that is not a JSON object, or whose patterns or
problem_signatures entry is not an object, raises AttributeError (calling
get or items on a non-dict); an entry that does not reconstruct raises
TypeError. Neither is caught by the except clause. -/
def load_patterns (file : FileContent) : Except PyErr LibraryState :=
  match file with
  | .missing => .ok empty_state
  | .undecodable => .ok empty_state
  | .decoded data =>
    match data with
    | .obj fields =>
      match (lookup_last "patterns".data fields).getD (.obj []) with
      | .obj pitems =>
        match load_pattern_items [] pitems with
        | .error e => .error e
        | .ok pats =>
          match (lookup_last "problem_signatures".data fields).getD (.obj []) with
          | .obj sitems =>
            match load_signature_items [] sitems with
            | .error e => .error e
            | .ok sigs => .ok ⟨pats, sigs⟩
          | _ => .error .attributeError
      | _ => .error .attributeError
    | _ => .error .attributeError

end PatternLibrary


namespace PyStr

/-- Matches of a regex of the form literal-prefix followed by a captured
word-char run (the constraint patterns of problem_identifier.py), with
IGNORECASE: scan left to right; at a position where the literal matches
and at least one word char follows, capture the maximal word-char run and
resume after it; otherwise advance one char. Fuel is the text length; each
step consumes at least one char. -/
def find_captures_aux (lit : List Char) : Nat → List Char → List (List Char)
  | 0, _ => []
  | _ + 1, [] => []
  | fuel + 1, c :: rest =>
    if lit ≠ [] ∧ is_ci_prefix lit (c :: rest) = true then
      let after := (c :: rest).drop lit.length
      let w := after.takeWhile is_word_char
      if w = [] then find_captures_aux lit fuel rest
      else w :: find_captures_aux lit fuel (after.drop w.length)
    else find_captures_aux lit fuel rest

/-- All captures of a literal-then-word regex in a text. -/
def find_captures (lit text : List Char) : List (List Char) :=
  find_captures_aux lit text.length text

end PyStr

namespace ProblemDetector

open PyStr PatternLibrary

/-- DetectedProblem record of problem_identifier.py. -/
structure DetectedProblem where
  id : List Char
  description : List Char
  domain : List Char
  urgency_score : ℚ
  complexity_score : ℚ
  connection_impact : Int
  evidence : List (List Char)
  potential_solutions : List (List Char)
  stakeholders : List (List Char)
  constraints : List (List Char)
deriving DecidableEq

/-- The six problem indicator categories of init_problem_indicators, in
dict insertion order. -/
def problem_indicators : List (List Char × List (List Char)) :=
  [ ( "inefficiency".data,
      [ "slow".data, "bottleneck".data, "delay".data, "waste".data, "redundant".data,
        "manual".data, "repetitive".data, "time-consuming".data, "inefficient".data,
        "suboptimal".data ]),
    ( "inconsistency".data,
      [ "inconsistent".data, "conflicting".data, "contradictory".data,
        "incompatible".data, "mismatch".data, "divergent".data,
        "different standards".data, "fragmented".data ]),
    ( "complexity".data,
      [ "complex".data, "complicated".data, "convoluted".data, "difficult".data,
        "hard to understand".data, "unclear".data, "confusing".data,
        "overwhelming".data, "tangled".data ]),
    ( "fragility".data,
      [ "breaks".data, "fails".data, "unstable".data, "unreliable".data,
        "fragile".data, "brittle".data, "error-prone".data, "crashes".data,
        "bugs".data, "vulnerable".data ]),
    ( "isolation".data,
      [ "isolated".data, "disconnected".data, "siloed".data, "separated".data,
        "fragmented".data, "no communication".data, "lack of coordination".data,
        "not connected".data ]),
    ( "scaling_limits".data,
      [ "doesn".data ++ [apos] ++ "t scale".data, "limited capacity".data,
        "resource constraints".data, "performance degradation".data,
        "bottleneck".data, "maximum load".data ]) ]

/-- The seven domain classifier lexicons of init_domain_classifiers, in
dict insertion order. -/
def domain_classifiers : List (List Char × List (List Char)) :=
  [ ( "communication".data,
      [ "message".data, "talk".data, "communicate".data, "information".data,
        "data transfer".data ]),
    ( "coordination".data,
      [ "coordinate".data, "sync".data, "align".data, "organize".data,
        "collaborate".data ]),
    ( "automation".data,
      [ "manual".data, "human intervention".data, "repetitive task".data,
        "process".data ]),
    ( "performance".data,
      [ "speed".data, "efficiency".data, "optimization".data, "resource usage".data ]),
    ( "reliability".data,
      [ "failure".data, "error".data, "crash".data, "bug".data, "instability".data ]),
    ( "scalability".data,
      [ "growth".data, "capacity".data, "load".data, "scaling".data,
        "expansion".data ]),
    ( "connection".data,
      [ "relationship".data, "network".data, "link".data, "interaction".data,
        "bond".data ]) ]

/-- ProblemDetector.classify_sentence_domain. -/
def classify_sentence_domain (sentence : List Char) : List Char :=
  let domain_scores := domain_classifiers.filterMap (fun dk =>
    let score := dk.2.countP (fun kw => contains_ci kw sentence)
    if score > 0 then some (dk.1, score) else none)
  match max_by_score domain_scores with
  | some best => best.1
  | none => "general".data

/-- The description templates of generate_problem_description, as the
prefix that the sentence is appended to. -/
def description_templates : List (List Char × List Char) :=
  [ ( "inefficiency".data, "Process inefficiency detected: ".data),
    ( "inconsistency".data, "Consistency problem identified: ".data),
    ( "complexity".data, "Complexity barrier found: ".data),
    ( "fragility".data, "Reliability issue detected: ".data),
    ( "isolation".data, "Connection gap identified: ".data),
    ( "scaling_limits".data, "Scaling limitation found: ".data) ]

/-- ProblemDetector.generate_problem_description. -/
def generate_problem_description (sentence : List Char)
    (indicators : List (List Char × List Char)) : List Char :=
  let primary_indicator := ((indicators.headD ( "general".data, [])).1)
  ((description_templates.lookup primary_indicator).getD "Problem detected: ".data)
    ++ sentence

/-- The urgency keywords of calculate_urgency. -/
def urgency_keywords : List (List Char) :=
  [ "critical".data, "urgent".data, "immediate".data, "emergency".data,
    "failing".data, "broken".data ]

/-- ProblemDetector.calculate_urgency. -/
def calculate_urgency (sentence : List Char)
    (indicators : List (List Char × List Char)) : ℚ :=
  let urgency_base : ℚ := (indicators.length : ℚ) * (0.2 : ℚ)
  let urgency_bonus : ℚ :=
    (0.3 : ℚ) * (urgency_keywords.countP (fun kw => contains_ci kw sentence) : ℚ)
  min 1 (urgency_base + urgency_bonus)

/-- The complexity indicators of calculate_complexity. -/
def complexity_indicators : List (List Char) :=
  [ "multiple".data, "various".data, "complex".data, "many".data, "several".data,
    "different".data ]

/-- ProblemDetector.calculate_complexity. -/
def calculate_complexity (sentence : List Char) : ℚ :=
  let complexity_score : ℚ :=
    (0.2 : ℚ) * (complexity_indicators.countP (fun kw => contains_ci kw sentence) : ℚ)
  let length_factor : ℚ := min (0.3 : ℚ) (((py_split_ws sentence).length : ℚ) / 50)
  min 1 (complexity_score + length_factor)

/-- The connection keywords of the detector version of
calculate_connection_impact. -/
def connection_keywords : List (List Char) :=
  [ "team".data, "people".data, "users".data, "everyone".data,
    "communication".data, "collaboration".data ]

/-- ProblemDetector.calculate_connection_impact. When the sentence contains
numbers but every number is at least 1000, Python takes the max of an empty
generator and raises ValueError, which propagates to the caller. -/
def calculate_connection_impact (sentence : List Char) : Except PyErr Int :=
  let base : Int := (connection_keywords.countP (fun kw => contains_ci kw sentence) : Int)
  let numbers := (digit_runs sentence).map parse_nat
  if numbers = [] then .ok base
  else
    match numbers.filter (fun n => n < 1000) with
    | [] => .error .valueError
    | x :: xs => .ok (base + (xs.foldl max x : Nat))

/-- The literal prefixes of the five constraint capture regexes of
extract_constraints (each is the literal followed by a captured word run).
The first one contains an apostrophe. -/
def constraint_literals : List (List Char) :=
  [ "can".data ++ [apos] ++ "t ".data, "cannot ".data, "unable to ".data,
    "limited by ".data, "restricted ".data ]

/-- ProblemDetector.extract_constraints. -/
def extract_constraints (sentence : List Char) : List (List Char) :=
  constraint_literals.flatMap (fun lit => find_captures lit sentence)

/-- The stakeholder keywords of extract_stakeholders. -/
def stakeholder_keywords : List (List Char) :=
  [ "team".data, "users".data, "customers".data, "developers".data, "people".data,
    "staff".data, "management".data ]

/-- ProblemDetector.extract_stakeholders. -/
def extract_stakeholders (sentence : List Char) : List (List Char) :=
  dedup_first [] (stakeholder_keywords.filter (fun kw => contains_ci kw sentence))

/-- The generic per-indicator solutions of suggest_solutions. -/
def indicator_solutions : List (List Char × List Char) :=
  [ ( "inefficiency".data, "Implement automation to reduce manual overhead".data),
    ( "inconsistency".data, "Create standardized protocols and validation".data),
    ( "complexity".data, "Break down into modular components".data),
    ( "fragility".data, "Add error handling and redundancy".data),
    ( "isolation".data, "Establish communication channels and integration".data),
    ( "scaling_limits".data, "Implement distributed architecture".data) ]

/-- ProblemDetector.suggest_solutions: query the pattern library at
threshold 0.3, keep the top three, then append the generic indicator
solutions and deduplicate. -/
def suggest_solutions (st : LibraryState) (domain : List Char)
    (indicators : List (List Char × List Char)) : List (List Char) :=
  let problem_sig : ProblemSignature := ⟨domain, "medium".data, [], [], []⟩
  let similar_patterns := find_similar_patterns st problem_sig (0.3 : ℚ)
  let solutions := (similar_patterns.take 3).map (fun p =>
    p.solution_approach ++ ": ".data
      ++ (p.implementation_steps.headD "Apply pattern".data))
  let solutions2 := solutions
    ++ indicators.filterMap (fun ik => indicator_solutions.lookup ik.1)
  dedup_first [] solutions2

/-- ProblemDetector.extract_problems_from_sentence. The id embeds the
Python hash of the description modulo 10000; string hashing is seed
dependent in CPython, so the hash is a parameter py_hash of the model.
The source argument is accepted and unused, as in the Python code. -/
def extract_problems_from_sentence (st : LibraryState) (py_hash : List Char → Nat)
    (sentence source : List Char) : Except PyErr (List DetectedProblem) :=
  let detected_indicators := problem_indicators.flatMap (fun ik =>
    (ik.2.filter (fun kw => contains_ci kw sentence)).map (fun kw => (ik.1, kw)))
  if detected_indicators = [] then .ok []
  else
    let domain := classify_sentence_domain sentence
    let problem_desc := generate_problem_description sentence detected_indicators
    let urgency := calculate_urgency sentence detected_indicators
    let complexity := calculate_complexity sentence
    match calculate_connection_impact sentence with
    | .error e => .error e
    | .ok connection_impact =>
      let evidence := [sentence]
      let constraints := extract_constraints sentence
      let stakeholders := extract_stakeholders sentence
      let potential_solutions := suggest_solutions st domain detected_indicators
      let problem_id := domain ++ [ '_' ] ++ pad4 (py_hash problem_desc % 10000)
      .ok [⟨problem_id, problem_desc, domain, urgency, complexity,
            connection_impact, evidence, potential_solutions, stakeholders,
            constraints⟩]

/-- The sentence loop of analyze_text_for_problems: collect the per
sentence problem lists in order, propagating the first exception. -/
def analyze_sentences (st : LibraryState) (py_hash : List Char → Nat)
    (source : List Char) : List (List Char) → Except PyErr (List DetectedProblem)
  | [] => .ok []
  | s :: rest =>
    match extract_problems_from_sentence st py_hash s source with
    | .error e => .error e
    | .ok ps =>
      match analyze_sentences st py_hash source rest with
      | .error e => .error e
      | .ok acc => .ok (ps ++ acc)

/-- ProblemDetector.deduplicate_problems: keep the first problem for each
key, the key being the first 50 chars of the lowercased description. -/
def deduplicate_problems_aux (seen : List (List Char)) :
    List DetectedProblem → List DetectedProblem
  | [] => []
  | p :: rest =>
    let key := (lcase p.description).take 50
    if seen.contains key then deduplicate_problems_aux seen rest
    else p :: deduplicate_problems_aux (key :: seen) rest

/-- ProblemDetector.deduplicate_problems. -/
def deduplicate_problems (problems : List DetectedProblem) : List DetectedProblem :=
  deduplicate_problems_aux [] problems

/-- ProblemDetector.analyze_text_for_problems. The recording of the
returned problems into the detected_problems dict mutates detector state
only and does not affect the returned list; it is not modelled. -/
def analyze_text_for_problems (st : LibraryState) (py_hash : List Char → Nat)
    (text source : List Char) : Except PyErr (List DetectedProblem) :=
  match analyze_sentences st py_hash source (sentences text) with
  | .error e => .error e
  | .ok detected => .ok (deduplicate_problems detected)

end ProblemDetector

section Claims

open PyStr UCPCore PatternLibrary ProblemDetector

/-- Claim C9: for every input text, the enhancement_score in the result of
UCPProcessor.process is at least 0.3; the score is floored at 0.3 by the
final max regardless of compression, logical confidence, bias penalty, or
connection-axiom outcome. -/
theorem claim_C9 (input_text : List Char) :
    (0.3 : ℚ) ≤ (process input_text).enhancement_score :=
  le_max_left _ _

/-- Claim C5: recombining an empty pattern list returns the dictionary
with the explicit error entry, for every problem_context string; the model
is total, mirroring that this code path raises no exception. -/
theorem claim_C5 (problem_context : List Char) :
    recombine_patterns [] problem_context
      = .error "No patterns provided for recombination".data := rfl

/-- Claim C3: validate_connection_axiom returns true iff the total count
of collaborative-keyword matches strictly exceeds the total count of
harmful-keyword matches. -/
theorem claim_C3 (text : List Char) :
    validate_connection_axiom text = true ↔
      (harmful_patterns.map (fun pat => count_ci pat text)).sum
        < (connection_patterns.map (fun pat => count_ci pat text)).sum := by
  simp [ validate_connection_axiom]

/-- The compression ratio field of compress, unfolded. -/
theorem compression_ratio_eq (text : List Char) :
    (compress text).compression_ratio
      = guarded_ratio (compressed_text_of text).length text.length := rfl

/-- A guarded ratio of natural numbers is nonnegative. -/
theorem guarded_ratio_nonneg (num den : Nat) : 0 ≤ guarded_ratio num den := by
  unfold guarded_ratio
  split
  · positivity
  · exact le_refl 0

/-- Claim C1, counterexample: the claim asserts the compression ratio is
in the interval zero to one whenever the input is non-empty, but on the
two-char input if the compressed text is three copies of the sentence
joined with a period and space, of length 10, so the ratio is 5. -/
theorem claim_C1_cex :
    0 < "if".data.length
      ∧ ¬ (compress "if".data).compression_ratio ≤ 1 := by
  constructor
  · decide
  · rw [compression_ratio_eq,
      show (compressed_text_of "if".data).length = 10 from by decide,
      show "if".data.length = 2 from by decide]
    rw [guarded_ratio]
    norm_num

/-- Claim C1, amended: the compression_ratio of UCPProcessor.compress is
at least 0 when the input length is greater than 0 (it can exceed 1), and
equals 0 when the input length is 0. -/
theorem claim_C1 (text : List Char) :
    0 ≤ (compress text).compression_ratio
      ∧ (text = [] → (compress text).compression_ratio = 0) := by
  constructor
  · rw [compression_ratio_eq]
    exact guarded_ratio_nonneg _ _
  · intro he
    subst he
    rfl

/-- Claim C1, witness for the amended claim at the empty input. -/
theorem claim_C1_wit : (compress ([] : List Char)).compression_ratio = 0 :=
  (claim_C1 []).2 rfl

/-- Claim C7, counterexample: a pattern file whose contents decode as the
JSON array [] is malformed as a pattern file, yet load_patterns raises
AttributeError (data.get on a list) rather than leaving the store silently
empty; only JSONDecodeError and FileNotFoundError are caught. -/
theorem claim_C7_cex :
    load_patterns (FileContent.decoded (Json.arr []))
      = Except.error PyErr.attributeError := rfl

/-- Claim C7, amended: a pattern file that is missing, or whose contents
fail to decode as JSON, leaves the store empty and raises no exception;
a file that decodes to JSON of an unexpected shape may raise. -/
theorem claim_C7 :
    load_patterns FileContent.missing = Except.ok empty_state
      ∧ load_patterns FileContent.undecodable = Except.ok empty_state :=
  ⟨rfl, rfl⟩

/-- The indicator scan of a sentence with no indicator keyword occurrence
finds nothing. -/
theorem detected_indicators_nil (s : List Char)
    (h : ∀ ik ∈ problem_indicators, ∀ kw ∈ ik.2, contains_ci kw s = false) :
    problem_indicators.flatMap (fun ik =>
      (ik.2.filter (fun kw => contains_ci kw s)).map (fun kw => (ik.1, kw))) = [] := by
  rw [List.flatMap_eq_nil_iff]
  intro ik hik
  rw [List.map_eq_nil_iff, List.filter_eq_nil_iff]
  intro kw hkw
  simp [h ik hik kw hkw]

/-- A sentence without indicator keywords produces no problem. -/
theorem extract_ok_empty (st : LibraryState) (py_hash : List Char → Nat)
    (s source : List Char)
    (h : ∀ ik ∈ problem_indicators, ∀ kw ∈ ik.2, contains_ci kw s = false) :
    extract_problems_from_sentence st py_hash s source = .ok [] := by
  unfold extract_problems_from_sentence
  rw [detected_indicators_nil s h]
  rfl

/-- The sentence loop returns the empty list when no sentence has an
indicator keyword occurrence. -/
theorem analyze_sentences_ok_nil (st : LibraryState) (py_hash : List Char → Nat)
    (source : List Char) (L : List (List Char))
    (h : ∀ s ∈ L, ∀ ik ∈ problem_indicators, ∀ kw ∈ ik.2, contains_ci kw s = false) :
    analyze_sentences st py_hash source L = .ok [] := by
  induction L with
  | nil => rfl
  | cons s rest ih =>
    have h1 := extract_ok_empty st py_hash s source
      (fun ik hik kw hkw => h s (List.mem_cons_self s rest) ik hik kw hkw)
    have h2 := ih (fun s2 hs2 ik hik kw hkw => h s2 (List.mem_cons_of_mem s hs2) ik hik kw hkw)
    simp only [analyze_sentences, h1, h2]
    rfl

/-- Claim C4: for every input text in which no keyword from any of the six
problem-indicator categories occurs case-insensitively in any sentence,
analyze_text_for_problems returns the empty list. -/
theorem claim_C4 (st : LibraryState) (py_hash : List Char → Nat)
    (text source : List Char)
    (h : ∀ s ∈ sentences text, ∀ ik ∈ problem_indicators, ∀ kw ∈ ik.2,
        contains_ci kw s = false) :
    analyze_text_for_problems st py_hash text source = .ok [] := by
  unfold analyze_text_for_problems
  rw [analyze_sentences_ok_nil st py_hash source (sentences text) h]
  rfl

/-- Claim C4, witness at a concrete indicator-free text. -/
theorem claim_C4_wit :
    analyze_text_for_problems empty_state (fun _ => 0) "Hello world".data "input".data
      = .ok [] :=
  claim_C4 empty_state (fun _ => 0) "Hello world".data "input".data (by decide)

/-- A single sentence yields at most one DetectedProblem (the extraction
appends exactly one problem when any indicator fires, none otherwise). -/
theorem extract_length_le (st : LibraryState) (py_hash : List Char → Nat)
    (s source : List Char) (ps : List DetectedProblem)
    (h : extract_problems_from_sentence st py_hash s source = .ok ps) :
    ps.length ≤ 1 := by
  simp only [extract_problems_from_sentence] at h
  split at h
  · cases h
    simp
  · split at h
    · cases h
    · cases h
      simp

/-- Deduplication never lengthens the problem list. -/
theorem dedup_aux_length (seen : List (List Char)) (l : List DetectedProblem) :
    (deduplicate_problems_aux seen l).length ≤ l.length := by
  induction l generalizing seen with
  | nil => simp [deduplicate_problems_aux]
  | cons p rest ih =>
    simp only [deduplicate_problems_aux]
    split
    · exact Nat.le_succ_of_le (ih seen)
    · simpa using ih _

/-- The sentence loop yields at most one problem per sentence. -/
theorem analyze_sentences_length (st : LibraryState) (py_hash : List Char → Nat)
    (source : List Char) (L : List (List Char)) (l : List DetectedProblem)
    (h : analyze_sentences st py_hash source L = .ok l) :
    l.length ≤ L.length := by
  induction L generalizing l with
  | nil =>
    cases h
    simp
  | cons s rest ih =>
    simp only [analyze_sentences] at h
    split at h
    · cases h
    · rename_i ps hps
      split at h
      · cases h
      · rename_i acc hacc
        cases h
        have h1 := extract_length_le st py_hash s source ps hps
        have h2 := ih acc hacc
        simp only [List.length_append, List.length_cons]
        omega

/-- Claim C10: every sentence yields at most one DetectedProblem, so the
list returned by analyze_text_for_problems (whenever it returns normally)
has length at most the number of non-empty sentences obtained by splitting
the text on period, exclamation mark and question mark. -/
theorem claim_C10 (st : LibraryState) (py_hash : List Char → Nat)
    (text source : List Char) (l : List DetectedProblem)
    (h : analyze_text_for_problems st py_hash text source = .ok l) :
    l.length ≤ (sentences text).length := by
  unfold analyze_text_for_problems at h
  split at h
  · cases h
  · rename_i detected hdet
    cases h
    exact le_trans (dedup_aux_length [] detected)
      (analyze_sentences_length st py_hash source (sentences text) detected hdet)

/-- Claim C10, witness on the empty text. -/
theorem claim_C10_wit :
    ([] : List DetectedProblem).length ≤ (sentences ([] : List Char)).length :=
  claim_C10 empty_state (fun _ => 0) [] [] [] rfl

/-- Claim C8: every pattern created by extract_pattern has a
confidence_score in the unit interval, and recombine_patterns applied to a
non-empty list of patterns with confidence scores in the unit interval
yields a recombined confidence_score in the unit interval and a
connections_enhanced of at least 0 whenever every input counter is at
least 0. -/
theorem claim_C8 :
    (∀ gen_id extract_metrics st problem solution impl source,
      0 ≤ ((extract_pattern gen_id extract_metrics st
              problem solution impl source).1).confidence_score
        ∧ ((extract_pattern gen_id extract_metrics st
              problem solution impl source).1).confidence_score ≤ 1)
    ∧ ∀ (ps : List SolutionPattern) (ctx : List Char), ps ≠ [] →
        (∀ p ∈ ps, 0 ≤ p.confidence_score ∧ p.confidence_score ≤ 1) →
        (∀ p ∈ ps, 0 ≤ p.connections_enhanced) →
        ∃ sol, recombine_patterns ps ctx = .recombined sol
          ∧ 0 ≤ sol.confidence_score ∧ sol.confidence_score ≤ 1
          ∧ 0 ≤ sol.connections_enhanced := by
  constructor
  · intro gen_id extract_metrics st problem solution impl source
    have h : ((extract_pattern gen_id extract_metrics st
          problem solution impl source).1).confidence_score
        = calculate_pattern_confidence problem solution := rfl
    rw [h]
    unfold calculate_pattern_confidence
    constructor
    · apply le_min
      · norm_num
      · positivity
    · exact min_le_left _ _
  · intro ps ctx hne h01 hconn
    have hlen : (0 : ℚ) < (ps.length : ℚ) := by
      have := List.length_pos.mpr hne
      exact_mod_cast this
    have hsum0 : 0 ≤ (ps.map (fun p => p.confidence_score)).sum := by
      apply List.sum_nonneg
      intro x hx
      obtain ⟨p, hp, rfl⟩ := List.mem_map.mp hx
      exact (h01 p hp).1
    have hsum1 : (ps.map (fun p => p.confidence_score)).sum ≤ (ps.length : ℚ) := by
      have := List.sum_le_card_nsmul (ps.map (fun p => p.confidence_score)) 1
        (fun x hx => by
          obtain ⟨p, hp, rfl⟩ := List.mem_map.mp hx
          exact (h01 p hp).2)
      simpa [nsmul_eq_mul] using this
    have hconn0 : 0 ≤ (ps.map (fun p => p.connections_enhanced)).sum := by
      apply List.sum_nonneg
      intro x hx
      obtain ⟨p, hp, rfl⟩ := List.mem_map.mp hx
      exact hconn p hp
    refine ⟨⟨dedup_steps [] (ps.flatMap (fun p => p.implementation_steps)),
        dedup_first [] (ps.flatMap (fun p => p.prerequisites)),
        (ps.map (fun p => p.confidence_score)).sum / (ps.length : ℚ),
        (ps.map (fun p => p.connections_enhanced)).sum,
        ps.map (fun p => p.id), ctx⟩, ?_, ?_, ?_, ?_⟩
    · unfold recombine_patterns
      rw [if_neg hne]
    · exact div_nonneg hsum0 hlen.le
    · exact (div_le_one hlen).mpr hsum1
    · exact hconn0

/-- Claim C8, witness: recombining one concrete unit-confidence pattern. -/
theorem claim_C8_wit :
    ∃ sol,
      recombine_patterns
          [⟨ "p1".data, "general".data, "custom".data, [ "step one".data ], [], [],
             0, 1, "manual".data ⟩] "ctx".data
        = .recombined sol
      ∧ 0 ≤ sol.confidence_score ∧ sol.confidence_score ≤ 1
      ∧ 0 ≤ sol.connections_enhanced :=
  claim_C8.2
    [⟨ "p1".data, "general".data, "custom".data, [ "step one".data ], [], [],
       0, 1, "manual".data ⟩] "ctx".data
    (by simp)
    (by
      intro p hp
      rw [List.mem_singleton] at hp
      subst hp
      norm_num)
    (by
      intro p hp
      rw [List.mem_singleton] at hp
      subst hp
      norm_num)

/-- A JSON array of strings reconstructs to the original string list. -/
theorem as_str_items_map (xs : List (List Char)) :
    as_str_items (xs.map .str) = some xs := by
  induction xs with
  | nil => rfl
  | cons x rest ih => simp [as_str_items, ih]

/-- Serializing a pattern and reconstructing it is the identity. -/
theorem pattern_round_trip (p : SolutionPattern) :
    json_to_pattern (pattern_to_json p) = some p := by
  have h : json_to_pattern (pattern_to_json p)
      = (match as_str_items (p.implementation_steps.map .str),
            as_str_items (p.success_metrics.map .str),
            as_str_items (p.prerequisites.map .str) with
        | some steps2, some mets2, some prs2 =>
          some ⟨p.id, p.problem_domain, p.solution_approach, steps2, mets2, prs2,
                p.connections_enhanced, p.confidence_score, p.source⟩
        | _, _, _ => none) := rfl
  rw [h, as_str_items_map, as_str_items_map, as_str_items_map]

/-- Serializing a signature and reconstructing it is the identity. -/
theorem signature_round_trip (s : ProblemSignature) :
    json_to_signature (signature_to_json s) = some s := by
  have h : json_to_signature (signature_to_json s)
      = (match as_str_items (s.constraints.map .str),
            as_str_items (s.stakeholders.map .str),
            as_str_items (s.success_criteria.map .str) with
        | some cons2, some stks2, some crit2 =>
          some ⟨s.domain, s.complexity, cons2, stks2, crit2⟩
        | _, _, _ => none) := rfl
  rw [h, as_str_items_map, as_str_items_map, as_str_items_map]

/-- Inserting a key absent from a dict appends at the end. -/
theorem dict_insert_fresh {α : Type} (k : List Char) (v : α) :
    ∀ (l : List (List Char × α)), (∀ kv ∈ l, kv.1 ≠ k) →
      dict_insert k v l = l ++ [(k, v)]
  | [], _ => rfl
  | kv :: rest, h => by
    unfold dict_insert
    rw [if_neg (h kv (List.mem_cons_self kv rest))]
    rw [dict_insert_fresh k v rest (fun kv2 hkv2 => h kv2 (List.mem_cons_of_mem kv hkv2))]
    simp

/-- Loading the serialized pattern entries into a dict with which they
share no key reproduces them in order. -/
theorem load_pattern_items_append (l : List (List Char × SolutionPattern)) :
    ∀ (acc : List (List Char × SolutionPattern)),
      (((acc ++ l).map Prod.fst).Nodup) →
      load_pattern_items acc (l.map (fun kv => (kv.1, pattern_to_json kv.2)))
        = .ok (acc ++ l) := by
  induction l with
  | nil => intro acc _; simp [load_pattern_items]
  | cons kv rest ih =>
    intro acc h
    simp only [List.map_cons, load_pattern_items, pattern_round_trip kv.2]
    have hfresh : ∀ kv2 ∈ acc, kv2.1 ≠ kv.1 := by
      intro kv2 hkv2 heq
      rw [List.map_append, List.map_cons] at h
      have hd := List.disjoint_of_nodup_append h
      exact hd (List.mem_map_of_mem Prod.fst hkv2) (by rw [heq]; exact List.mem_cons_self _ _)
    rw [dict_insert_fresh kv.1 kv.2 acc hfresh]
    have hnd : (((acc ++ [kv]) ++ rest).map Prod.fst).Nodup := by
      simpa [List.append_assoc] using h
    have := ih (acc ++ [kv]) hnd
    simpa [List.append_assoc] using this

/-- Loading the serialized signature entries into a dict with which they
share no key reproduces them in order. -/
theorem load_signature_items_append (l : List (List Char × ProblemSignature)) :
    ∀ (acc : List (List Char × ProblemSignature)),
      (((acc ++ l).map Prod.fst).Nodup) →
      load_signature_items acc (l.map (fun kv => (kv.1, signature_to_json kv.2)))
        = .ok (acc ++ l) := by
  induction l with
  | nil => intro acc _; simp [load_signature_items]
  | cons kv rest ih =>
    intro acc h
    simp only [List.map_cons, load_signature_items, signature_round_trip kv.2]
    have hfresh : ∀ kv2 ∈ acc, kv2.1 ≠ kv.1 := by
      intro kv2 hkv2 heq
      rw [List.map_append, List.map_cons] at h
      have hd := List.disjoint_of_nodup_append h
      exact hd (List.mem_map_of_mem Prod.fst hkv2) (by rw [heq]; exact List.mem_cons_self _ _)
    rw [dict_insert_fresh kv.1 kv.2 acc hfresh]
    have hnd : (((acc ++ [kv]) ++ rest).map Prod.fst).Nodup := by
      simpa [List.append_assoc] using h
    have := ih (acc ++ [kv]) hnd
    simpa [List.append_assoc] using this

/-- Claim C2: saving the pattern store and loading it back on a fresh store
pointed at the same file reproduces the identical pattern ids and field
values (the Python dicts have no duplicate keys, which is the Nodup
hypothesis). -/
theorem claim_C2 (st : LibraryState)
    (h1 : (st.patterns.map Prod.fst).Nodup)
    (h2 : (st.problem_signatures.map Prod.fst).Nodup) :
    load_patterns (FileContent.decoded (save_patterns st)) = .ok st := by
  have hp : load_pattern_items []
      (st.patterns.map (fun kv => (kv.1, pattern_to_json kv.2))) = .ok st.patterns := by
    simpa using load_pattern_items_append st.patterns [] (by simpa using h1)
  have hs : load_signature_items []
      (st.problem_signatures.map (fun kv => (kv.1, signature_to_json kv.2)))
        = .ok st.problem_signatures := by
    simpa using load_signature_items_append st.problem_signatures [] (by simpa using h2)
  show (match load_pattern_items []
        (st.patterns.map (fun kv : List Char × SolutionPattern =>
          (kv.1, pattern_to_json kv.2))) with
    | .error e => Except.error e
    | .ok pats =>
      match load_signature_items []
          (st.problem_signatures.map (fun kv : List Char × ProblemSignature =>
            (kv.1, signature_to_json kv.2))) with
      | .error e => Except.error e
      | .ok sigs => Except.ok (⟨pats, sigs⟩ : LibraryState)) = .ok st
  rw [hp, hs]

/-- Claim C2, witness: a concrete one-pattern one-signature store survives
the save and load round trip. -/
theorem claim_C2_wit :
    load_patterns (FileContent.decoded (save_patterns
      ⟨[( "k1".data,
          ⟨ "k1".data, "general".data, "custom".data, [ "step one".data ], [], [],
            0, 1, "manual".data ⟩)],
        [( "s1".data, ⟨ "general".data, "medium".data, [], [], [] ⟩)]⟩))
      = .ok
      ⟨[( "k1".data,
          ⟨ "k1".data, "general".data, "custom".data, [ "step one".data ], [], [],
            0, 1, "manual".data ⟩)],
        [( "s1".data, ⟨ "general".data, "medium".data, [], [], [] ⟩)]⟩ :=
  claim_C2 _ (by simp) (by simp)

/-- The kept-and-scored pattern pairs of find_similar_patterns project to
the threshold filter of the stored patterns. -/
theorem map_fst_filterMap_sim (sig : ProblemSignature) (threshold : ℚ) :
    ∀ (l : List (List Char × SolutionPattern)),
      ((l.filterMap (fun kv =>
          let similarity := calculate_similarity sig kv.2
          if similarity ≥ threshold then some (kv.2, similarity) else none)).map
        Prod.fst)
      = (l.map Prod.snd).filter
          (fun p => decide (calculate_similarity sig p ≥ threshold)) := by
  intro l
  induction l with
  | nil => rfl
  | cons kv rest ih =>
    by_cases hc : calculate_similarity sig kv.2 ≥ threshold
    · simp only [List.filterMap_cons, List.map_cons, List.filter_cons]
      rw [if_pos hc]
      simp only [List.map_cons, ih, decide_eq_true hc]
      rfl
    · simp only [List.filterMap_cons, List.map_cons, List.filter_cons]
      rw [if_neg hc]
      simp only [ih, decide_eq_false hc]
      rfl

/-- Every scored pair produced by find_similar_patterns carries the
similarity of its own pattern. -/
theorem mem_filterMap_sim (sig : ProblemSignature) (threshold : ℚ)
    (l : List (List Char × SolutionPattern)) :
    ∀ x ∈ l.filterMap (fun kv =>
        let similarity := calculate_similarity sig kv.2
        if similarity ≥ threshold then some (kv.2, similarity) else none),
      x.2 = calculate_similarity sig x.1 := by
  intro x hx
  rw [List.mem_filterMap] at hx
  obtain ⟨kv, _, hfx⟩ := hx
  simp only at hfx
  split at hfx
  · cases hfx
    rfl
  · cases hfx

/-- Claim C6: find_similar_patterns returns exactly the stored patterns
whose similarity reaches the threshold (as a permutation, preserving
multiplicity), ordered by descending similarity, where the similarity is
0.6 times an exact-domain-match indicator plus 0.4 times the fraction of
the signature constraints that case-insensitively substring-match some
implementation step, the fraction being 0 when there are no constraints. -/
theorem claim_C6 (st : LibraryState) (sig : ProblemSignature) (threshold : ℚ) :
    ((find_similar_patterns st sig threshold).Perm
      ((st.patterns.map Prod.snd).filter
        (fun p => decide (calculate_similarity sig p ≥ threshold))))
    ∧ (find_similar_patterns st sig threshold).Pairwise
        (fun a b => calculate_similarity sig b ≤ calculate_similarity sig a)
    ∧ ∀ p, calculate_similarity sig p
        = (0.6 : ℚ) * (if sig.domain = p.problem_domain then 1 else 0)
          + (0.4 : ℚ) * (if sig.constraints = [] then 0
              else (sig.constraints.countP (fun constraint =>
                  p.implementation_steps.any (fun step => contains_ci constraint step)) : ℚ)
                / (sig.constraints.length : ℚ)) := by
  refine ⟨?_, ?_, ?_⟩
  · unfold find_similar_patterns
    exact ((List.mergeSort_perm _ _).map Prod.fst).trans
      (by rw [map_fst_filterMap_sim sig threshold st.patterns])
  · unfold find_similar_patterns
    have htrans : ∀ (a b c : SolutionPattern × ℚ),
        (fun a b : SolutionPattern × ℚ => decide (b.2 ≤ a.2)) a b →
        (fun a b : SolutionPattern × ℚ => decide (b.2 ≤ a.2)) b c →
        (fun a b : SolutionPattern × ℚ => decide (b.2 ≤ a.2)) a c := by
      intro a b c hab hbc
      simp only [decide_eq_true_eq] at *
      exact le_trans hbc hab
    have htotal : ∀ (a b : SolutionPattern × ℚ),
        ((fun a b : SolutionPattern × ℚ => decide (b.2 ≤ a.2)) a b
          || (fun a b : SolutionPattern × ℚ => decide (b.2 ≤ a.2)) b a) = true := by
      intro a b
      simp only [Bool.or_eq_true, decide_eq_true_eq]
      exact le_total b.2 a.2
    have hsorted := List.sorted_mergeSort htrans htotal
      (st.patterns.filterMap (fun kv =>
        let similarity := calculate_similarity sig kv.2
        if similarity ≥ threshold then some (kv.2, similarity) else none))
    have himp := hsorted.imp_of_mem (fun {a b} ha hb hab => by
      have ha2 := mem_filterMap_sim sig threshold st.patterns a
        (List.mem_mergeSort.mp ha)
      have hb2 := mem_filterMap_sim sig threshold st.patterns b
        (List.mem_mergeSort.mp hb)
      have hle : b.2 ≤ a.2 := of_decide_eq_true hab
      rw [ha2, hb2] at hle
      exact hle)
    exact List.pairwise_map.mpr himp
  · intro p
    unfold calculate_similarity
    by_cases hd : sig.domain = p.problem_domain <;>
      by_cases hcs : sig.constraints = [] <;>
        simp only [hd, hcs, if_pos, if_neg, ne_eq, not_true_eq_false, not_false_eq_true,
          ite_true, ite_false] <;> ring

end Claims
